import Mathlib

/-!
Verification of the DiskUsageMonitor telemetry pipeline (`dashapp.py`).

The Python source is shallowly embedded: pandas frames become explicit
index/column structures, SQLite rows become lists of records keyed by
timestamp, Python numbers become exact rationals (`ℚ`), fallible paths
return `Option`/`Except`.  Each definition mirrors one function of the
source file and keeps its name where Lean allows.
-/

namespace DiskUsage

/-- Sampling interval in seconds (`INTERVAL_SEC = 10` in the source). -/
def INTERVAL_SEC : ℤ := 10

/-- Row cap of the bounded read (`LIMIT_ROW = 8640` in the source). -/
def LIMIT_ROW : ℕ := 8640

/-! ### Magnitude formatting (`format_number`, source lines 105-111) -/

/-- The fixed suffix scale of `format_number`. -/
def SUFFIXES : List String := ["", "k", "M", "G", "T"]

/-- Python's `abs` on a rational, written so the kernel can evaluate it. -/
def pyAbs (q : ℚ) : ℚ := if q < 0 then -q else q

/-- Renders a rational with exactly two decimal digits, modelling the
Python f-string `f"{num:.2f}"` (sign, integer part, dot, two digits;
halves round up in magnitude — exact inputs, the only ones the claims
use, render identically either way). -/
def fmt2 (q : ℚ) : String :=
  let r : ℚ := pyAbs q * 100 + 1 / 2
  let n : ℕ := r.num.toNat / r.den
  let core := toString (n / 100) ++ "." ++
    (if n % 100 < 10 then "0" ++ toString (n % 100) else toString (n % 100))
  if q < 0 then "-" ++ core else core

/-- The suffix loop of `format_number`: try each suffix in turn, dividing
by 1000 when the absolute value is still at least 1000.  Falling off the
end of the list models the Python function returning `None`. -/
def format_number_go : ℚ → List String → Option String
  | _, [] => none
  | num, sfx :: rest =>
    if pyAbs num < 1000 then some (fmt2 num ++ sfx)
    else format_number_go (num / 1000) rest

/-- `format_number` from the source: loop over `SUFFIXES`. -/
def format_number (num : ℚ) : Option String :=
  format_number_go num SUFFIXES

/-! ### Time-series store and sampler (`db_init`/`save_data`, lines 30-41, 70-81) -/

/-- One row of the `data` table: `timestamp INTEGER PRIMARY KEY, size, used`. -/
structure Row where
  timestamp : ℤ
  size : ℤ
  used : ℤ
deriving DecidableEq, Repr

/-- Database-level failures surfaced by SQLite. -/
inductive DBErr
  | duplicateKey
deriving DecidableEq, Repr

/-- `INSERT INTO data VALUES (?,?,?)` against the table of `db_init`:
the `timestamp` primary key rejects a second row with an existing key. -/
def insertRow (store : List Row) (r : Row) : Except DBErr (List Row) :=
  if store.any (fun x => x.timestamp == r.timestamp) then .error .duplicateKey
  else .ok (store ++ [r])

/-- The body of `save_data`'s infinite loop, run over a finite list of
probed samples.  The `INSERT` is not wrapped in any exception handler in
the source, so a failed insert stops the loop with the error recorded
and the remaining ticks unprocessed. -/
def save_data_run (store : List Row) : List Row → List Row × Option DBErr
  | [] => (store, none)
  | r :: rest =>
    match insertRow store r with
    | .ok store' => save_data_run store' rest
    | .error e => (store, some e)

/-! ### Probe (`get_disk_space`, lines 84-102) -/

/-- Python `str.replace(",", "")`. -/
def stripCommas (s : String) : String :=
  String.mk (s.data.filter (fun c => c ≠ ','))

/-- Python `int(...)` on the digit strings produced by `df`: an optional
sign followed by at least one decimal digit. -/
def pyInt (s : String) : Option ℤ :=
  let digitsToNat : List Char → Option ℕ := fun cs =>
    if cs.isEmpty then none
    else cs.foldl (fun acc c =>
      match acc with
      | none => none
      | some n => if c.isDigit then some (n * 10 + (c.toNat - 48)) else none)
      (some 0)
  match s.data with
  | '-' :: rest => (digitsToNat rest).map (fun n => -(n : ℤ))
  | cs => (digitsToNat cs).map (fun n => (n : ℤ))

/-- Splits a character list at every character satisfying `p` (the
separators are dropped; empty groups are kept, as in `str.split(sep)`). -/
def splitChars (p : Char → Bool) (cs : List Char) : List (List Char) :=
  cs.foldr (fun ch acc =>
    if p ch then [] :: acc
    else match acc with
    | [] => [[ch]]
    | cur :: rest => (ch :: cur) :: rest) [[]]

/-- Python `str.split("\n")`. -/
def pyLines (s : String) : List String :=
  (splitChars (fun c => c == '\n') s.data).map String.mk

/-- Python `str.split()` with no argument: split on whitespace,
dropping empty pieces. -/
def pySplit (s : String) : List String :=
  ((splitChars Char.isWhitespace s.data).filter (fun g => g ≠ [])).map String.mk

/-- `get_disk_space`: take the second line of the `df -k` output, split
its fields, strip thousands separators, parse the two numbers, scale
each by 1000 (kB → bytes) and pair them with the current epoch second
(`now` stands for `int(datetime.datetime.now().timestamp())`).  Any
malformed output makes the Python function raise; that is `none` here. -/
def get_disk_space (output : String) (now : ℤ) : Option Row :=
  match (pyLines output).get? 1 with
  | none => none
  | some line =>
    let stats := pySplit line
    match stats.get? 0, stats.get? 1 with
    | some s0, some s1 =>
      match pyInt (stripCommas s0), pyInt (stripCommas s1) with
      | some a, some b => some ⟨now, a * 1000, b * 1000⟩
      | _, _ => none
    | _, _ => none

/-! ### Bounded read (`load_data`, lines 44-67) -/

/-- The `ORDER BY timestamp DESC` comparison of the inner query. -/
def tsDesc (a b : Row) : Prop := b.timestamp ≤ a.timestamp

instance : DecidableRel tsDesc := fun a b => Int.decLe b.timestamp a.timestamp

instance : IsTotal Row tsDesc := ⟨fun a b => le_total b.timestamp a.timestamp⟩

instance : IsTrans Row tsDesc := ⟨fun _ _ _ h1 h2 => le_trans h2 h1⟩

/-- The SQL of `load_data`: newest `limit` rows taken in descending
timestamp order, then the outer `ORDER BY timestamp ASC` (a reverse,
since the timestamps are distinct). -/
def selectRecent (store : List Row) (limit : ℕ) : List Row :=
  ((store.insertionSort tsDesc).take limit).reverse

/-- `df.index += datetime.timedelta(hours=9)`: the Asia/Tokyo display
shift applied to every loaded timestamp. -/
def shiftRow (r : Row) : Row := { r with timestamp := r.timestamp + 9 * 3600 }

/-- `load_data`: bounded ascending read followed by the +9h display shift. -/
def load_data (store : List Row) : List Row :=
  (selectRecent store LIMIT_ROW).map shiftRow

/-! ### Status summary (`free_disk`, lines 114-121) -/

/-- The one-row frame returned by `free_disk`: every numeric column of
the latest sample plus the two derived columns, all rendered through
`format_number` by the `applymap` call (the timestamp is the frame's
index, not a column, so it is not formatted). -/
structure StatusRow where
  timestamp : ℤ
  size : Option String
  used : Option String
  free : Option String
  usagePct : Option String
deriving DecidableEq, Repr

/-- `free_disk`: take the last row (`df.iloc[-1:]`), derive
`free = size - used` and `usage[%] = used / size * 100`, format every
cell.  An empty frame has no last row (`none`); the division is exact
rational arithmetic, faithful for the `size > 0` case the claims use. -/
def free_disk (df : List Row) : Option StatusRow :=
  match df.getLast? with
  | none => none
  | some last => some
    { timestamp := last.timestamp
      size := format_number (last.size : ℚ)
      used := format_number (last.used : ℚ)
      free := format_number ((last.size : ℚ) - (last.used : ℚ))
      usagePct := format_number ((last.used : ℚ) / (last.size : ℚ) * 100) }

/-! ### A small pandas model for `select_graph_type` (lines 124-145)

pandas aligns label-indexed data by label, and `.loc` with a list of row
labels requires every label to exist.  Frame row labels here are either
timestamps (the `DatetimeIndex` of `load_data`) or strings (the index of
the Series produced by `df.max()`, whose labels are column names). -/

/-- A pandas axis label: a timestamp or a string. -/
inductive Lbl
  | t (n : ℤ)
  | s (x : String)
deriving DecidableEq, Repr

instance : BEq Lbl := instBEqOfDecidableEq

/-- A data frame: row labels plus named columns of cells, `none` = NaN. -/
structure DFrame where
  index : List Lbl
  cols : List (String × List (Option ℚ))
deriving DecidableEq, Repr

/-- Maximum of a column, skipping NaN cells (pandas `Series.max`). -/
def cellsMax (vs : List (Option ℚ)) : Option ℚ :=
  vs.foldl (fun acc v =>
    match acc, v with
    | none, v => v
    | some m, none => some m
    | some m, some x => some (max m x)) none

/-- Minimum of a column, skipping NaN cells (pandas `Series.min`). -/
def cellsMin (vs : List (Option ℚ)) : Option ℚ :=
  vs.foldl (fun acc v =>
    match acc, v with
    | none, v => v
    | some m, none => some m
    | some m, some x => some (min m x)) none

/-- `df.max()`: a Series whose labels are the column names. -/
def dfMaxSeries (df : DFrame) : List (Lbl × Option ℚ) :=
  df.cols.map (fun c => (Lbl.s c.1, cellsMax c.2))

/-- `df.min()` as a Series, labels again the column names. -/
def dfMinSeries (df : DFrame) : List (Lbl × Option ℚ) :=
  df.cols.map (fun c => (Lbl.s c.1, cellsMin c.2))

/-- `df[name] = series`: pandas aligns the assigned Series on the frame's
row labels; a label missing from the Series yields NaN in that row. -/
def setCol (df : DFrame) (name : String) (series : List (Lbl × Option ℚ)) : DFrame :=
  let vals := df.index.map (fun i => (series.lookup i).join)
  { df with cols :=
      if df.cols.any (fun c => c.1 == name) then
        df.cols.map (fun c => if c.1 = name then (name, vals) else c)
      else df.cols ++ [(name, vals)] }

/-- `df[name]` read as a plain value list (all call sites use existing
columns; a missing column reads as empty). -/
def getCol (df : DFrame) (name : String) : List (Option ℚ) :=
  (df.cols.lookup name).getD []

/-- pandas errors raised inside the transform. -/
inductive PErr
  | keyError
deriving DecidableEq, Repr

/-- `df.loc[labels]` (row selection by a list of labels): every label
must be present in the index, otherwise `KeyError`. -/
def locRows (df : DFrame) (labels : List Lbl) : Except PErr DFrame :=
  if labels.all (fun l => df.index.contains l) then
    .ok { index := labels
          cols := df.cols.map (fun c =>
            (c.1, labels.map (fun l => ((df.index.zip c.2).lookup l).join))) }
  else .error .keyError

/-- One plotly scatter trace as built in `select_graph_type`. -/
structure Trace where
  name : String
  x : List Lbl
  y : List (Option ℚ)
  mode : String
  fill : Option String
deriving DecidableEq, Repr

/-- `select_graph_type`: the `size` trace is always built; `RealTime`
adds the filled `used` trace and returns the frame unchanged; `Min-Max`
assigns `df.max()` / `df.min()` as columns (label-aligned) and then
row-selects the labels `"size"`, `"max"`, `"min"`; any other selector
falls off the end of the Python function, returning `None`. -/
def select_graph_type (df : DFrame) (selected : String) :
    Except PErr (Option (DFrame × List Trace)) :=
  let data : List Trace := [⟨"size", df.index, getCol df "size", "lines", none⟩]
  if selected = "RealTime" then
    .ok (some (df, data ++ [⟨"used", df.index, getCol df "used", "lines+markers", some "tozeroy"⟩]))
  else if selected = "Min-Max" then
    let df1 := setCol df "max" (dfMaxSeries df)
    let df2 := setCol df1 "min" (dfMinSeries df1)
    match locRows df2 [Lbl.s "size", Lbl.s "max", Lbl.s "min"] with
    | .ok sub => .ok (some (sub, data))
    | .error e => .error e
  else .ok none

/-! ### Computed axis ranges (`update_graph`, lines 250-284) -/

/-- `df[-n:]` on a frame: the last `n` rows. -/
def dfTail (df : DFrame) (n : ℕ) : DFrame :=
  { index := df.index.drop (df.index.length - n)
    cols := df.cols.map (fun c => (c.1, c.2.drop (df.index.length - n))) }

/-- `df.max().max()`: the maximum over all column maxima, skipping NaN. -/
def dfMaxMax (df : DFrame) : Option ℚ :=
  cellsMax (df.cols.map (fun c => cellsMax c.2))

/-- Python negative indexing `l[-k]` (`k ≥ 1`): `IndexError` out of range. -/
def negIdx (l : List Lbl) (k : ℕ) : Option Lbl :=
  if k ≤ l.length then l.get? (l.length - k) else none

/-- Adding a `timedelta` of whole seconds to a timestamp label. -/
def addSeconds (l : Lbl) (d : ℤ) : Option Lbl :=
  match l with
  | .t n => some (.t (n + d))
  | .s _ => none

/-- The layout computation of `update_graph`: `show_df = dff[-100:]`,
y-range `(0, show_df.max().max() * 1.05)`, x-range from
`show_df.index[-10] if len(dff) > 10 else dff.index[0]` to
`show_df.index[-1] + timedelta(seconds=INTERVAL_SEC)`.  The y top is
`none` when every visible cell is NaN; any failing index access (empty
frame, non-timestamp last label) is `none` overall. -/
def computedRanges (dff : DFrame) : Option ((Lbl × Lbl) × (ℚ × Option ℚ)) :=
  let showDf := dfTail dff 100
  let yTop := (dfMaxMax showDf).map (fun m => m * (105 / 100 : ℚ))
  let xLo := if 10 < dff.index.length then negIdx showDf.index 10 else dff.index.get? 0
  match xLo, negIdx showDf.index 1 with
  | some a, some b =>
    (addSeconds b INTERVAL_SEC).map (fun b' => ((a, b'), (0, yTop)))
  | _, _ => none

/-! ### View-state reconciliation (`update_graph`, lines 288-304) -/

/-- A value stored in plotly's `relayoutData` map: a single number
(the `"...range[i]"` entries) or a two-element range. -/
inductive PVal
  | num (q : ℚ)
  | pair (a b : ℚ)
deriving DecidableEq, Repr

/-- The four bound fields tested by `update_graph`. -/
def relayoutItems : List String :=
  ["xaxis.range[0]", "xaxis.range[1]", "yaxis.range[0]", "yaxis.range[1]"]

/-- The tail of `update_graph`: if none of the four bound fields occurs
in the relayout event, the freshly computed ranges are returned;
otherwise the figure's ranges are overwritten with
`relayout_data.get("xaxis.range")` / `relayout_data.get("yaxis.range")`
(`dict.get`: `None` when the key is absent). -/
def reconcile_ranges (computedX computedY : PVal)
    (relayout : List (String × PVal)) : Option PVal × Option PVal :=
  let isRelayouted := relayoutItems.any (fun i => (relayout.lookup i).isSome)
  if isRelayouted then
    (relayout.lookup "xaxis.range", relayout.lookup "yaxis.range")
  else (some computedX, some computedY)

/-! ## Theorems -/

lemma pyAbs_nonneg (q : ℚ) : 0 ≤ pyAbs q := by
  unfold pyAbs
  split
  · linarith
  · linarith [not_lt.mp (by assumption : ¬ q < 0)]

lemma pyAbs_div_pos (q c : ℚ) (hc : 0 < c) : pyAbs (q / c) = pyAbs q / c := by
  unfold pyAbs
  by_cases h : q < 0
  · rw [if_pos h, if_pos (div_neg_of_neg_of_pos h hc), neg_div]
  · rw [if_neg h, if_neg (not_lt.mpr (div_nonneg (not_lt.mp h) hc.le))]

/-- C4: for numbers of magnitude below `10^15`, `format_number` divides
by 1000 through the suffix scale, stops at the first suffix where the
divided magnitude is below 1000, and renders two decimals plus that
suffix; in particular `format_number` maps `999` to `"999.00"`, `1000`
to `"1.00k"`, `1500000` to `"1.50M"` and `0` to `"0.00"`. -/
theorem format_number_scale_spec :
    (∀ q : ℚ, pyAbs q < 10 ^ 15 →
      ∃ k : ℕ, k < 5 ∧ pyAbs (q / 1000 ^ k) < 1000 ∧
        (∀ j : ℕ, j < k → 1000 ≤ pyAbs (q / 1000 ^ j)) ∧
        format_number q = some (fmt2 (q / 1000 ^ k) ++ SUFFIXES.getD k "")) ∧
    format_number 999 = some "999.00" ∧
    format_number 1000 = some "1.00k" ∧
    format_number 1500000 = some "1.50M" ∧
    format_number 0 = some "0.00" := by
  constructor
  · intro q hq
    have h1000 : (0:ℚ) < 1000 := by norm_num
    have e1 : q / 1000 ^ 1 = q / 1000 := by norm_num
    have e2 : q / 1000 ^ 2 = q / 1000 / 1000 := by
      rw [div_div]; norm_num
    have e3 : q / 1000 ^ 3 = q / 1000 / 1000 / 1000 := by
      rw [div_div, div_div]; norm_num
    have e4 : q / 1000 ^ 4 = q / 1000 / 1000 / 1000 / 1000 := by
      rw [div_div, div_div, div_div]; norm_num
    have a1 : pyAbs (q / 1000) = pyAbs q / 1000 := pyAbs_div_pos q 1000 h1000
    have a2 : pyAbs (q / 1000 / 1000) = pyAbs q / 1000 / 1000 := by
      rw [pyAbs_div_pos _ 1000 h1000, a1]
    have a3 : pyAbs (q / 1000 / 1000 / 1000) = pyAbs q / 1000 / 1000 / 1000 := by
      rw [pyAbs_div_pos _ 1000 h1000, a2]
    have a4 : pyAbs (q / 1000 / 1000 / 1000 / 1000) = pyAbs q / 1000 / 1000 / 1000 / 1000 := by
      rw [pyAbs_div_pos _ 1000 h1000, a3]
    by_cases h0 : pyAbs q < 1000
    · refine ⟨0, by norm_num, by simpa using h0, fun j hj => absurd hj (Nat.not_lt_zero j), ?_⟩
      have e0 : q / 1000 ^ 0 = q := by norm_num
      rw [e0]
      simp [format_number, SUFFIXES, format_number_go, h0]
    by_cases h1 : pyAbs q < 10 ^ 6
    · have c1 : pyAbs (q / 1000) < 1000 := by
        rw [a1, div_lt_iff₀ h1000]; nlinarith
      refine ⟨1, by norm_num, by rwa [e1], ?_, ?_⟩
      · intro j hj
        interval_cases j
        simpa using not_lt.mp h0
      · rw [e1]
        simp [format_number, SUFFIXES, format_number_go, h0, c1]
    by_cases h2 : pyAbs q < 10 ^ 9
    · have n1 : ¬ pyAbs (q / 1000) < 1000 := by
        rw [a1, not_lt, le_div_iff₀ h1000]; nlinarith [not_lt.mp h1]
      have c2 : pyAbs (q / 1000 / 1000) < 1000 := by
        rw [a2, div_lt_iff₀ h1000, div_lt_iff₀ h1000]; nlinarith
      refine ⟨2, by norm_num, by rwa [e2], ?_, ?_⟩
      · intro j hj
        interval_cases j
        · simpa using not_lt.mp h0
        · rw [e1]; exact not_lt.mp n1
      · rw [e2]
        simp [format_number, SUFFIXES, format_number_go, h0, n1, c2]
    by_cases h3 : pyAbs q < 10 ^ 12
    · have n1 : ¬ pyAbs (q / 1000) < 1000 := by
        rw [a1, not_lt, le_div_iff₀ h1000]; nlinarith [not_lt.mp h1]
      have n2 : ¬ pyAbs (q / 1000 / 1000) < 1000 := by
        rw [a2, not_lt, le_div_iff₀ h1000, le_div_iff₀ h1000]; nlinarith [not_lt.mp h2]
      have c3 : pyAbs (q / 1000 / 1000 / 1000) < 1000 := by
        rw [a3, div_lt_iff₀ h1000, div_lt_iff₀ h1000, div_lt_iff₀ h1000]; nlinarith
      refine ⟨3, by norm_num, by rwa [e3], ?_, ?_⟩
      · intro j hj
        interval_cases j
        · simpa using not_lt.mp h0
        · rw [e1]; exact not_lt.mp n1
        · rw [e2]; exact not_lt.mp n2
      · rw [e3]
        simp [format_number, SUFFIXES, format_number_go, h0, n1, n2, c3]
    · have n1 : ¬ pyAbs (q / 1000) < 1000 := by
        rw [a1, not_lt, le_div_iff₀ h1000]; nlinarith [not_lt.mp h1]
      have n2 : ¬ pyAbs (q / 1000 / 1000) < 1000 := by
        rw [a2, not_lt, le_div_iff₀ h1000, le_div_iff₀ h1000]; nlinarith [not_lt.mp h2]
      have n3 : ¬ pyAbs (q / 1000 / 1000 / 1000) < 1000 := by
        rw [a3, not_lt, le_div_iff₀ h1000, le_div_iff₀ h1000, le_div_iff₀ h1000]
        nlinarith [not_lt.mp h3]
      have c4 : pyAbs (q / 1000 / 1000 / 1000 / 1000) < 1000 := by
        rw [a4, div_lt_iff₀ h1000, div_lt_iff₀ h1000, div_lt_iff₀ h1000, div_lt_iff₀ h1000]
        nlinarith
      refine ⟨4, by norm_num, by rwa [e4], ?_, ?_⟩
      · intro j hj
        interval_cases j
        · simpa using not_lt.mp h0
        · rw [e1]; exact not_lt.mp n1
        · rw [e2]; exact not_lt.mp n2
        · rw [e3]; exact not_lt.mp n3
      · rw [e4]
        simp [format_number, SUFFIXES, format_number_go, h0, n1, n2, n3, c4]
  refine ⟨?_, ?_, ?_, ?_⟩ <;>
    · norm_num [format_number, format_number_go, fmt2, pyAbs]
      decide

/-- Witness for C4 at the concrete input `1500000`. -/
theorem format_number_scale_spec_witness :
    pyAbs (1500000 : ℚ) < 10 ^ 15 ∧
    ∃ k : ℕ, k < 5 ∧ pyAbs ((1500000 : ℚ) / 1000 ^ k) < 1000 ∧
      (∀ j : ℕ, j < k → 1000 ≤ pyAbs ((1500000 : ℚ) / 1000 ^ j)) ∧
      format_number 1500000 = some (fmt2 ((1500000 : ℚ) / 1000 ^ k) ++ SUFFIXES.getD k "") :=
  ⟨by norm_num [pyAbs], format_number_scale_spec.1 1500000 (by norm_num [pyAbs])⟩

/-- C10: for magnitudes at least `10^15` the suffix loop exhausts all
five suffixes without the stopping condition ever holding, and
`format_number` produces no string at all (Python returns `None`). -/
theorem format_number_overflow_none (q : ℚ) (h : 10 ^ 15 ≤ pyAbs q) :
    format_number q = none := by
  have h1000 : (0:ℚ) < 1000 := by norm_num
  have a1 : pyAbs (q / 1000) = pyAbs q / 1000 := pyAbs_div_pos q 1000 h1000
  have a2 : pyAbs (q / 1000 / 1000) = pyAbs q / 1000 / 1000 := by
    rw [pyAbs_div_pos _ 1000 h1000, a1]
  have a3 : pyAbs (q / 1000 / 1000 / 1000) = pyAbs q / 1000 / 1000 / 1000 := by
    rw [pyAbs_div_pos _ 1000 h1000, a2]
  have a4 : pyAbs (q / 1000 / 1000 / 1000 / 1000) = pyAbs q / 1000 / 1000 / 1000 / 1000 := by
    rw [pyAbs_div_pos _ 1000 h1000, a3]
  have n0 : ¬ pyAbs q < 1000 := by nlinarith
  have n1 : ¬ pyAbs (q / 1000) < 1000 := by
    rw [a1, not_lt, le_div_iff₀ h1000]; nlinarith
  have n2 : ¬ pyAbs (q / 1000 / 1000) < 1000 := by
    rw [a2, not_lt, le_div_iff₀ h1000, le_div_iff₀ h1000]; nlinarith
  have n3 : ¬ pyAbs (q / 1000 / 1000 / 1000) < 1000 := by
    rw [a3, not_lt, le_div_iff₀ h1000, le_div_iff₀ h1000, le_div_iff₀ h1000]; nlinarith
  have n4 : ¬ pyAbs (q / 1000 / 1000 / 1000 / 1000) < 1000 := by
    rw [a4, not_lt, le_div_iff₀ h1000, le_div_iff₀ h1000, le_div_iff₀ h1000, le_div_iff₀ h1000]
    nlinarith
  simp [format_number, SUFFIXES, format_number_go, n0, n1, n2, n3, n4]

/-- Witness for C10 at the concrete input `10^15`. -/
theorem format_number_overflow_none_witness :
    10 ^ 15 ≤ pyAbs ((10 : ℚ) ^ 15) ∧ format_number ((10 : ℚ) ^ 15) = none :=
  ⟨by norm_num [pyAbs], format_number_overflow_none ((10 : ℚ) ^ 15) (by norm_num [pyAbs])⟩

/-- C1 (behaviour at the failing input): a relayout event carrying all
four bound fields `"...range[0]"`/`"...range[1]"` trips the
`is_relayouted` test, but the override then reads the keys
`"xaxis.range"`/`"yaxis.range"`, which such an event does not contain,
so both returned ranges are `None` — not the user-supplied bounds.  An
empty event does return the computed ranges. -/
theorem reconcile_ranges_drops_user_bounds :
    reconcile_ranges (.pair 0 1) (.pair 0 2)
      [("xaxis.range[0]", .num 5), ("xaxis.range[1]", .num 10),
       ("yaxis.range[0]", .num 0), ("yaxis.range[1]", .num 100)] = (none, none) ∧
    reconcile_ranges (.pair 0 1) (.pair 0 2) [] = (some (.pair 0 1), some (.pair 0 2)) :=
  ⟨rfl, rfl⟩

/-- C2 (behaviour at the failing input): on a two-row window, `Min-Max`
raises `KeyError`: `df["max"] = df.max()` aligns the column-name-indexed
Series against the timestamp index (all cells NaN), and
`df.loc[["size", "max", "min"]]` then row-selects labels that are not in
the timestamp index. -/
theorem select_graph_type_minmax_keyerror :
    select_graph_type
      ⟨[Lbl.t 100, Lbl.t 101], [("size", [some 50, some 60]), ("used", [some 20, some 30])]⟩
      "Min-Max" = .error .keyError :=
  rfl

/-- C3 (counterexample): a duplicate-timestamp tick errors out of
`save_data`'s loop — the insert is not wrapped in any handler — so the
later tick at timestamp 101 is never processed; the store keeps the one
original row for timestamp 100. -/
theorem save_data_run_duplicate_stops_loop :
    save_data_run [] [⟨100, 5, 3⟩, ⟨100, 6, 4⟩, ⟨101, 7, 2⟩]
      = ([⟨100, 5, 3⟩], some .duplicateKey) ∧
    (save_data_run [] [⟨100, 5, 3⟩, ⟨100, 6, 4⟩, ⟨101, 7, 2⟩]).1.countP
      (fun r => r.timestamp == 101) = 0 :=
  ⟨rfl, rfl⟩

/-- C3 (amended): a tick whose timestamp is already stored fails with
`DuplicateKeyError`; the store still holds exactly one row for that
timestamp, but the uncaught error terminates the sampling loop with all
remaining ticks unprocessed. -/
theorem save_data_run_duplicate_one_row (store : List Row) (r : Row) (ds : List Row)
    (h : store.countP (fun x => x.timestamp == r.timestamp) = 1) :
    save_data_run store (r :: ds) = (store, some .duplicateKey) ∧
    (save_data_run store (r :: ds)).1.countP (fun x => x.timestamp == r.timestamp) = 1 := by
  have hex : ∃ x ∈ store, (x.timestamp == r.timestamp) = true := by
    apply List.countP_pos_iff.mp
    omega
  have ha : store.any (fun x => x.timestamp == r.timestamp) = true :=
    List.any_eq_true.mpr hex
  have he : save_data_run store (r :: ds) = (store, some .duplicateKey) := by
    simp [save_data_run, insertRow, ha]
  exact ⟨he, by rw [he]; exact h⟩

/-- Witness for the amended C3 at a concrete store and tick. -/
theorem save_data_run_duplicate_one_row_witness :
    ([⟨100, 5, 3⟩] : List Row).countP
      (fun x => x.timestamp == (Row.mk 100 6 4).timestamp) = 1 ∧
    (save_data_run [⟨100, 5, 3⟩] [⟨100, 6, 4⟩] = ([⟨100, 5, 3⟩], some .duplicateKey) ∧
      (save_data_run [⟨100, 5, 3⟩] [⟨100, 6, 4⟩]).1.countP
        (fun x => x.timestamp == (Row.mk 100 6 4).timestamp) = 1) :=
  ⟨rfl, save_data_run_duplicate_one_row [⟨100, 5, 3⟩] ⟨100, 6, 4⟩ [] rfl⟩

/-- C5: for well-formed probe output, `get_disk_space` parses the two
numeric fields of the second line (stripping comma separators),
multiplies each 1-KiB-block count by exactly 1000, and stamps the sample
with the given epoch second; in particular reported blocks
`size=1000000`, `used=500000` yield bytes `size=1000000000`,
`used=500000000`. -/
theorem get_disk_space_parses :
    (∀ (output : String) (now : ℤ) (line s0 s1 : String) (rest : List String) (a b : ℤ),
      (pyLines output).get? 1 = some line →
      pySplit line = s0 :: s1 :: rest →
      pyInt (stripCommas s0) = some a →
      pyInt (stripCommas s1) = some b →
      get_disk_space output now = some ⟨now, a * 1000, b * 1000⟩) ∧
    ∀ now : ℤ, get_disk_space "Filesystem 1K-blocks Used\n1000000 500000" now
      = some ⟨now, 1000000000, 500000000⟩ := by
  constructor
  · intro output now line s0 s1 rest a b h1 h2 h3 h4
    simp only [get_disk_space, List.get?_eq_getElem?] at h1 ⊢
    rw [h1]
    simp [h2, h3, h4]
  · intro now
    rfl

/-- Witness for C5 at a concrete probe output (with comma separators). -/
theorem get_disk_space_parses_witness :
    ((pyLines "Fs 1K-blocks Used\n1,000,000 500,000").get? 1
        = some "1,000,000 500,000" ∧
      pySplit "1,000,000 500,000" = "1,000,000" :: "500,000" :: [] ∧
      pyInt (stripCommas "1,000,000") = some 1000000 ∧
      pyInt (stripCommas "500,000") = some 500000) ∧
    get_disk_space "Fs 1K-blocks Used\n1,000,000 500,000" 77
      = some ⟨77, 1000000 * 1000, 500000 * 1000⟩ :=
  ⟨⟨rfl, rfl, rfl, rfl⟩,
    get_disk_space_parses.1 "Fs 1K-blocks Used\n1,000,000 500,000" 77
      "1,000,000 500,000" "1,000,000" "500,000" [] 1000000 500000 rfl rfl rfl rfl⟩

/-- C7: the status summary is the most recent row augmented with
`free = size - used` and `usage_pct = used / size * 100`, all rendered
through `format_number`; for the latest sample `size = 10^9`,
`used = 2.5x10^8` the derived cells are `"750.00M"` and `"25.00"`. -/
theorem free_disk_summary :
    (∀ (df : List Row) (last : Row), df.getLast? = some last → 0 < last.size →
      free_disk df = some
        { timestamp := last.timestamp
          size := format_number (last.size : ℚ)
          used := format_number (last.used : ℚ)
          free := format_number ((last.size : ℚ) - (last.used : ℚ))
          usagePct := format_number ((last.used : ℚ) / (last.size : ℚ) * 100) }) ∧
    ∃ st : StatusRow, free_disk [⟨0, 1000000000, 250000000⟩] = some st ∧
      st.free = some "750.00M" ∧ st.usagePct = some "25.00" := by
  constructor
  · intro df last h _
    simp [free_disk, h]
  · refine ⟨_, rfl, ?_, ?_⟩ <;>
      · show format_number _ = _
        norm_num [format_number, format_number_go, fmt2, pyAbs]
        decide

/-- Witness for C7's universally quantified part at a concrete frame. -/
theorem free_disk_summary_witness :
    ([⟨0, 1000000000, 250000000⟩] : List Row).getLast? = some ⟨0, 1000000000, 250000000⟩ ∧
    0 < (Row.mk 0 1000000000 250000000).size ∧
    free_disk [⟨0, 1000000000, 250000000⟩] = some
      { timestamp := (Row.mk 0 1000000000 250000000).timestamp
        size := format_number ((Row.mk 0 1000000000 250000000).size : ℚ)
        used := format_number ((Row.mk 0 1000000000 250000000).used : ℚ)
        free := format_number (((Row.mk 0 1000000000 250000000).size : ℚ)
          - ((Row.mk 0 1000000000 250000000).used : ℚ))
        usagePct := format_number (((Row.mk 0 1000000000 250000000).used : ℚ)
          / ((Row.mk 0 1000000000 250000000).size : ℚ) * 100) } :=
  ⟨rfl, by norm_num,
    free_disk_summary.1 [⟨0, 1000000000, 250000000⟩] ⟨0, 1000000000, 250000000⟩ rfl (by norm_num)⟩

/-- C8 (counterexample): the selector value `Candle` is not rejected
with any error — `select_graph_type` falls off the end of the function
and returns `None`. -/
theorem select_graph_type_candle_no_error :
    select_graph_type ⟨[Lbl.t 100], [("size", [some 50]), ("used", [some 20])]⟩ "Candle"
      = .ok none ∧
    select_graph_type ⟨[Lbl.t 100], [("size", [some 50]), ("used", [some 20])]⟩ "Candle"
      ≠ .error .keyError := by
  refine ⟨rfl, ?_⟩
  intro h
  rw [(rfl : select_graph_type
      ⟨[Lbl.t 100], [("size", [some 50]), ("used", [some 20])]⟩ "Candle" = .ok none)] at h
  exact Except.noConfusion h

/-- C8 (amended): every selector value other than the two implemented
mode strings — the unimplemented `Candle` included — makes
`select_graph_type` return `None` silently instead of raising an error. -/
theorem select_graph_type_unknown_returns_none (df : DFrame) (sel : String)
    (h1 : sel ≠ "RealTime") (h2 : sel ≠ "Min-Max") :
    select_graph_type df sel = .ok none := by
  simp [select_graph_type, h1, h2]

/-- Witness for the amended C8 at the selector `Candle`. -/
theorem select_graph_type_unknown_returns_none_witness :
    ("Candle" ≠ "RealTime") ∧ ("Candle" ≠ "Min-Max") ∧
    select_graph_type ⟨[Lbl.t 0], [("size", [some 1]), ("used", [some 1])]⟩ "Candle"
      = .ok none :=
  ⟨by decide, by decide,
    select_graph_type_unknown_returns_none _ "Candle" (by decide) (by decide)⟩

/-- C6: for a store with distinct timestamps (the primary-key
invariant), `load_data` returns the most recent `LIMIT_ROW` rows —
every stored row it omits is strictly older than everything returned —
in strictly ascending timestamp order. -/
theorem load_data_recent_ascending (store : List Row)
    (hnd : (store.map Row.timestamp).Nodup) :
    List.Pairwise (fun a b : Row => a.timestamp < b.timestamp) (load_data store) ∧
    (load_data store).length = min LIMIT_ROW store.length ∧
    (∀ s ∈ load_data store, ∃ r ∈ store, s = shiftRow r) ∧
    (∀ r ∈ store, shiftRow r ∉ load_data store →
      ∀ s ∈ load_data store, r.timestamp + 9 * 3600 < s.timestamp) := by
  have hperm : (store.insertionSort tsDesc).Perm store := List.perm_insertionSort tsDesc store
  have hsorted : List.Sorted tsDesc (store.insertionSort tsDesc) :=
    List.sorted_insertionSort tsDesc store
  have hndsort : ((store.insertionSort tsDesc).map Row.timestamp).Nodup :=
    ((hperm.map Row.timestamp).nodup_iff).mpr hnd
  have hne : List.Pairwise (fun a b : Row => a.timestamp ≠ b.timestamp)
      (store.insertionSort tsDesc) := List.pairwise_map.mp hndsort
  have hstrict : List.Pairwise (fun a b : Row => b.timestamp < a.timestamp)
      (store.insertionSort tsDesc) :=
    (hsorted.and hne).imp (fun h => lt_of_le_of_ne h.1 (Ne.symm h.2))
  have hstrict_take : List.Pairwise (fun a b : Row => b.timestamp < a.timestamp)
      ((store.insertionSort tsDesc).take LIMIT_ROW) :=
    hstrict.sublist (List.take_sublist _ _)
  have hasc : List.Pairwise (fun a b : Row => a.timestamp < b.timestamp)
      (selectRecent store LIMIT_ROW) := List.pairwise_reverse.mpr hstrict_take
  refine ⟨?_, ?_, ?_, ?_⟩
  · rw [load_data]
    refine List.pairwise_map.mpr (hasc.imp ?_)
    intro a b hab
    simp only [shiftRow]
    omega
  · rw [load_data, List.length_map, selectRecent, List.length_reverse, List.length_take,
      hperm.length_eq]
  · intro s hs
    rw [load_data] at hs
    obtain ⟨r, hr, rfl⟩ := List.mem_map.mp hs
    refine ⟨r, ?_, rfl⟩
    exact hperm.mem_iff.mp ((List.take_sublist _ _).subset (List.mem_reverse.mp hr))
  · intro r hr hnot s hs
    rw [load_data] at hs hnot
    obtain ⟨s0, hs0mem, rfl⟩ := List.mem_map.mp hs
    have hs0take : s0 ∈ (store.insertionSort tsDesc).take LIMIT_ROW :=
      List.mem_reverse.mp hs0mem
    have hrsort : r ∈ store.insertionSort tsDesc := hperm.mem_iff.mpr hr
    have hrtake : r ∉ (store.insertionSort tsDesc).take LIMIT_ROW := by
      intro hmem2
      exact hnot (List.mem_map_of_mem _ (List.mem_reverse.mpr hmem2))
    have hrdrop : r ∈ (store.insertionSort tsDesc).drop LIMIT_ROW := by
      have hsplit : r ∈ (store.insertionSort tsDesc).take LIMIT_ROW ++
          (store.insertionSort tsDesc).drop LIMIT_ROW := by
        rw [List.take_append_drop]
        exact hrsort
      rcases List.mem_append.mp hsplit with h | h
      · exact absurd h hrtake
      · exact h
    have hcross : ∀ a ∈ (store.insertionSort tsDesc).take LIMIT_ROW,
        ∀ b ∈ (store.insertionSort tsDesc).drop LIMIT_ROW, b.timestamp < a.timestamp := by
      have hp : List.Pairwise (fun a b : Row => b.timestamp < a.timestamp)
          ((store.insertionSort tsDesc).take LIMIT_ROW ++
            (store.insertionSort tsDesc).drop LIMIT_ROW) := by
        rw [List.take_append_drop]
        exact hstrict
      exact (List.pairwise_append.mp hp).2.2
    have hlt : r.timestamp < s0.timestamp := hcross s0 hs0take r hrdrop
    simp only [shiftRow]
    omega

/-- Witness for C6 at a concrete three-row store. -/
theorem load_data_recent_ascending_witness :
    (([⟨5, 1, 1⟩, ⟨3, 2, 2⟩, ⟨9, 3, 3⟩] : List Row).map Row.timestamp).Nodup ∧
    (List.Pairwise (fun a b : Row => a.timestamp < b.timestamp)
        (load_data [⟨5, 1, 1⟩, ⟨3, 2, 2⟩, ⟨9, 3, 3⟩]) ∧
      (load_data [⟨5, 1, 1⟩, ⟨3, 2, 2⟩, ⟨9, 3, 3⟩]).length
        = min LIMIT_ROW ([⟨5, 1, 1⟩, ⟨3, 2, 2⟩, ⟨9, 3, 3⟩] : List Row).length ∧
      (∀ s ∈ load_data [⟨5, 1, 1⟩, ⟨3, 2, 2⟩, ⟨9, 3, 3⟩],
        ∃ r ∈ ([⟨5, 1, 1⟩, ⟨3, 2, 2⟩, ⟨9, 3, 3⟩] : List Row), s = shiftRow r) ∧
      (∀ r ∈ ([⟨5, 1, 1⟩, ⟨3, 2, 2⟩, ⟨9, 3, 3⟩] : List Row),
        shiftRow r ∉ load_data [⟨5, 1, 1⟩, ⟨3, 2, 2⟩, ⟨9, 3, 3⟩] →
        ∀ s ∈ load_data [⟨5, 1, 1⟩, ⟨3, 2, 2⟩, ⟨9, 3, 3⟩],
          r.timestamp + 9 * 3600 < s.timestamp)) :=
  ⟨by decide, load_data_recent_ascending [⟨5, 1, 1⟩, ⟨3, 2, 2⟩, ⟨9, 3, 3⟩] (by decide)⟩

/-- C9: with no relayout override, the computed x-range runs from the
10th-from-last visible point (or the first windowed point when the
window holds 10 or fewer points) through one sampling interval past the
last point, and the computed y-range is `[0, 1.05 x max(visible)]`,
where the visible points are the last 100 points of the display
series. -/
theorem computedRanges_spec (dff : DFrame)
    (hne : dff.index ≠ [])
    (hts : ∃ tn : ℤ, dff.index.getLast? = some (Lbl.t tn))
    (hmx : ∃ m : ℚ, dfMaxMax (dfTail dff 100) = some m) :
    ∃ (xlo : Lbl) (tn : ℤ) (m : ℚ),
      computedRanges dff
        = some ((xlo, Lbl.t (tn + INTERVAL_SEC)), (0, some (m * (105 / 100 : ℚ)))) ∧
      dff.index.getLast? = some (Lbl.t tn) ∧
      dfMaxMax (dfTail dff 100) = some m ∧
      (10 < dff.index.length → (dfTail dff 100).index.reverse.get? 9 = some xlo) ∧
      (dff.index.length ≤ 10 → dff.index.get? 0 = some xlo) := by
  obtain ⟨tn, htn⟩ := hts
  obtain ⟨m, hm⟩ := hmx
  have hlen : 0 < dff.index.length := List.length_pos.mpr hne
  have hshowidx : (dfTail dff 100).index = dff.index.drop (dff.index.length - 100) := rfl
  have hlen' : (dfTail dff 100).index.length
      = dff.index.length - (dff.index.length - 100) := by
    rw [hshowidx, List.length_drop]
  have e1 : negIdx (dfTail dff 100).index 1 = some (Lbl.t tn) := by
    rw [negIdx, if_pos (by omega : 1 ≤ (dfTail dff 100).index.length)]
    rw [List.get?_eq_getElem?, ← List.getLast?_eq_getElem?, hshowidx, List.getLast?_drop,
      if_neg (by omega)]
    exact htn
  by_cases h10 : 10 < dff.index.length
  · have h10' : 10 < (dfTail dff 100).index.length := by omega
    have e2 : negIdx (dfTail dff 100).index 10
        = some ((dfTail dff 100).index.get
            ⟨(dfTail dff 100).index.length - 10, by omega⟩) := by
      rw [negIdx, if_pos (by omega), List.get?_eq_getElem?,
        List.getElem?_eq_getElem (by omega)]
      rfl
    refine ⟨(dfTail dff 100).index.get ⟨(dfTail dff 100).index.length - 10, by omega⟩,
      tn, m, ?_, htn, hm, ?_, ?_⟩
    · simp only [computedRanges, if_pos h10, e1, e2, hm, addSeconds]
      rfl
    · intro _
      rw [List.get?_eq_getElem?,
        List.getElem?_reverse (by omega : 9 < (dfTail dff 100).index.length),
        show (dfTail dff 100).index.length - 1 - 9 = (dfTail dff 100).index.length - 10
          from by omega,
        List.getElem?_eq_getElem (by omega)]
      rfl
    · intro h
      exact absurd h (by omega)
  · have e3 : dff.index.get? 0 = some (dff.index.get ⟨0, hlen⟩) := by
      rw [List.get?_eq_getElem?, List.getElem?_eq_getElem hlen]
      rfl
    refine ⟨dff.index.get ⟨0, hlen⟩, tn, m, ?_, htn, hm, ?_, ?_⟩
    · simp only [computedRanges, if_neg h10, e1, e3, hm, addSeconds]
      rfl
    · intro h
      exact absurd h h10
    · intro _
      exact e3

/-- Witness for C9 at a concrete one-row display frame. -/
theorem computedRanges_spec_witness :
    (([Lbl.t 0] : List Lbl) ≠ [] ∧
      (∃ tn : ℤ, (DFrame.mk [Lbl.t 0] [("size", [some 50])]).index.getLast?
        = some (Lbl.t tn)) ∧
      (∃ m : ℚ, dfMaxMax (dfTail (DFrame.mk [Lbl.t 0] [("size", [some 50])]) 100)
        = some m)) ∧
    ∃ (xlo : Lbl) (tn : ℤ) (m : ℚ),
      computedRanges (DFrame.mk [Lbl.t 0] [("size", [some 50])])
        = some ((xlo, Lbl.t (tn + INTERVAL_SEC)), (0, some (m * (105 / 100 : ℚ)))) ∧
      (DFrame.mk [Lbl.t 0] [("size", [some 50])]).index.getLast? = some (Lbl.t tn) ∧
      dfMaxMax (dfTail (DFrame.mk [Lbl.t 0] [("size", [some 50])]) 100) = some m ∧
      (10 < (DFrame.mk [Lbl.t 0] [("size", [some 50])]).index.length →
        (dfTail (DFrame.mk [Lbl.t 0] [("size", [some 50])]) 100).index.reverse.get? 9
          = some xlo) ∧
      ((DFrame.mk [Lbl.t 0] [("size", [some 50])]).index.length ≤ 10 →
        (DFrame.mk [Lbl.t 0] [("size", [some 50])]).index.get? 0 = some xlo) :=
  ⟨⟨by decide, ⟨0, rfl⟩, ⟨50, rfl⟩⟩,
    computedRanges_spec (DFrame.mk [Lbl.t 0] [("size", [some 50])])
      (by decide) ⟨0, rfl⟩ ⟨50, rfl⟩⟩

end DiskUsage
